import Mathlib

set_option maxRecDepth 4000

/-!
Shallow embedding of the `slam_datasets` CARMEN log reader
(`src/slam_datasets/carmen/carmen_reader.py` together with the record types
of `src/slam_datasets/records.py`).

Modelling conventions:
* Python floating-point values are modelled as exact rationals (`ℚ`).  The
  numeric tokens appearing in CARMEN logs are finite decimals, and the only
  arithmetic the decoder performs on them is copying, one subtraction and one
  exact division, so rationals track the source faithfully for the
  properties considered here.  `math.pi` is modelled by the exact rational
  value of the IEEE-754 double that Python's `math.pi` denotes.
* Python exceptions caught by the per-line `try`/`except` blocks are
  modelled by `Option`: any failing field extraction makes the whole decode
  of that line `none`.
* Python list indexing (`tok[i]`: negative indices address from the end,
  out-of-range indices raise) is modelled by `pyGet`, and Python slicing
  (`tok[a:b]`: indices normalised then clamped, never raising) by `pySlice`.
* `line.strip().split()` is modelled by `pySplit`, splitting on runs of
  whitespace and discarding empty pieces.
* `int(s)` / `float(s)` on a log token are modelled by `pyInt?` / `pyFloat?`
  over the token grammar occurring in such logs: an optional sign followed
  by a decimal numeral (for floats, with an optional fractional part).
-/

/-- `records.Pose2D`: immutable `(x, y, yaw)` triple. -/
structure Pose2D where
  x : ℚ
  y : ℚ
  yaw : ℚ
deriving DecidableEq

/-- `records.LaserScan2DRecord`: the canonical output record. -/
structure LaserScan2DRecord where
  stamp : ℚ
  frame_id : String
  angle_min : ℚ
  angle_increment : ℚ
  range_min : ℚ
  range_max : ℚ
  ranges : List ℚ
  robot_pose : Option Pose2D := none
  laser_pose : Option Pose2D := none
  tv : Option ℚ := none
  rv : Option ℚ := none
deriving DecidableEq

/-- Python index normalisation: a negative index counts from the end. -/
def pyIdxNorm (len : Nat) (i : Int) : Int :=
  if i < 0 then i + len else i

/-- Python `l[i]` under `try`/`except`: `none` models the `IndexError`. -/
def pyGet {α : Type*} (l : List α) (i : Int) : Option α :=
  let j := pyIdxNorm l.length i
  if j < 0 then none else l.get? j.toNat

/-- Python slice-bound normalisation: wrap negatives, clamp to `[0, len]`. -/
def pyClamp (len : Nat) (i : Int) : Nat :=
  min (pyIdxNorm len i).toNat len

/-- Python `l[a:b]` (step 1): clamped, never raising. -/
def pySlice {α : Type*} (l : List α) (a b : Int) : List α :=
  (l.take (pyClamp l.length b)).drop (pyClamp l.length a)

/-- Numeric value of a digit character. -/
def digitVal (c : Char) : Nat := c.toNat - '0'.toNat

/-- Value of a digit run, most significant first. -/
def natOfDigits (l : List Char) : Nat :=
  l.foldl (fun a c => 10 * a + digitVal c) 0

/-- Python `int(s)` on a log token: optional sign then a nonempty digit run. -/
def pyInt? (s : String) : Option Int :=
  let core : List Char → Option Int := fun l =>
    if l ≠ [] ∧ l.all Char.isDigit then some (natOfDigits l : Int) else none
  match s.data with
  | '-' :: rest => (core rest).map (fun v => -v)
  | '+' :: rest => core rest
  | l => core l

/-- Python `float(s)` on a log token: optional sign, then either a digit run
with an optional `.`-separated fractional digit run, or a fractional part
alone.  (Exponents, `inf` and `nan` do not occur in the logs modelled.) -/
def pyFloat? (s : String) : Option ℚ :=
  let core : List Char → Option ℚ := fun l =>
    match l.span Char.isDigit with
    | (ip, []) => if ip ≠ [] then some (natOfDigits ip : ℚ) else none
    | (ip, c :: fp) =>
      if c = '.' ∧ fp.all Char.isDigit ∧ (ip ≠ [] ∨ fp ≠ []) then
        some ((natOfDigits ip : ℚ) + (natOfDigits fp : ℚ) / (10 ^ fp.length))
      else none
  match s.data with
  | '-' :: rest => (core rest).map (fun v => -v)
  | '+' :: rest => core rest
  | l => core l

/-- Python `list(map(float, toks))` under `try`/`except`: all tokens must
parse, otherwise the enclosing decode fails. -/
def mapFloat? : List String → Option (List ℚ)
  | [] => some []
  | t :: ts => do
    let v ← pyFloat? t
    let vs ← mapFloat? ts
    some (v :: vs)

/-- Helper for `pySplit`: accumulate the current token (reversed). -/
def pySplitAux : List Char → List Char → List String
  | [], acc => if acc = [] then [] else [String.mk acc.reverse]
  | c :: cs, acc =>
    if c.isWhitespace then
      if acc = [] then pySplitAux cs []
      else String.mk acc.reverse :: pySplitAux cs []
    else pySplitAux cs (c :: acc)

/-- Python `line.strip().split()`: split on whitespace runs, no empties. -/
def pySplit (s : String) : List String := pySplitAux s.data []

/-- Python `s.startswith(p)`. -/
def pyStartsWith (s p : String) : Bool := p.data.isPrefixOf s.data

/-- Python `max(ranges) if ranges else 0.0`. -/
def pyListMax : List ℚ → ℚ
  | [] => 0
  | x :: xs => xs.foldl max x

/-- The exact rational value of the IEEE-754 double `math.pi`
(= 884279719003555 / 2^48). -/
def mathPi : ℚ := 884279719003555 / 281474976710656

/-- `CarmenLogReader.__init__` configuration.  The `path` argument concerns
only the external stream provider (file opening / decompression) and is not
part of the decoding model. -/
structure CarmenLogReader where
  scan_frame_id : String := "laser"
  prefer_message_timestamp : Bool := true

/-- The tail of `_parse_robotlaser` after the layout resolution: remission
count and values, laser pose, robot pose, velocities, three skipped
safety/turn-axis fields, then the IPC timestamp, starting at token
position `idx0`. -/
def robotlaserTail (self : CarmenLogReader) (tok : List String)
    (start_angle ang_res max_range : ℚ) (ranges : List ℚ) (idx0 : Int) :
    Option LaserScan2DRecord := do
  let num_rem ← (pyGet tok idx0).bind pyInt?
  let i1 : Int := idx0 + 1 + num_rem
  let lx ← (pyGet tok i1).bind pyFloat?
  let ly ← (pyGet tok (i1 + 1)).bind pyFloat?
  let lyaw ← (pyGet tok (i1 + 2)).bind pyFloat?
  let i2 : Int := i1 + 3
  let rx ← (pyGet tok i2).bind pyFloat?
  let ry ← (pyGet tok (i2 + 1)).bind pyFloat?
  let ryaw ← (pyGet tok (i2 + 2)).bind pyFloat?
  let i3 : Int := i2 + 3
  let tv ← (pyGet tok i3).bind pyFloat?
  let rv ← (pyGet tok (i3 + 1)).bind pyFloat?
  let i4 : Int := i3 + 2 + 3
  let stamp ← (pyGet tok i4).bind pyFloat?
  some { stamp := stamp, frame_id := self.scan_frame_id,
         angle_min := start_angle, angle_increment := ang_res,
         range_min := 0, range_max := max_range, ranges := ranges,
         robot_pose := some ⟨rx, ry, ryaw⟩, laser_pose := some ⟨lx, ly, lyaw⟩,
         tv := some tv, rv := some rv }

/-- `_parse_robotlaser` on the whitespace-split token list of a line. -/
def parseRobotlaserTok (self : CarmenLogReader) (tok : List String) :
    Option LaserScan2DRecord := do
  let _laser_type ← (pyGet tok 1).bind pyInt?
  let start_angle ← (pyGet tok 2).bind pyFloat?
  let _fov ← (pyGet tok 3).bind pyFloat?
  let ang_res ← (pyGet tok 4).bind pyFloat?
  let max_range ← (pyGet tok 5).bind pyFloat?
  let _accuracy ← (pyGet tok 6).bind pyFloat?
  let _remission_mode ← (pyGet tok 7).bind pyInt?
  let n ← (pyGet tok 8).bind pyInt?
  let ranges ← mapFloat? (pySlice tok 9 (9 + n))
  let idxAfterRanges : Int := 9 + n
  let remaining : Int := (tok.length : Int) - idxAfterRanges
  let min_tail_A : Int := 15
  let idx : Int :=
    if remaining > min_tail_A + n then idxAfterRanges + n else idxAfterRanges
  robotlaserTail self tok start_angle ang_res max_range ranges idx

/-- `_parse_robotlaser(line)`: split, then decode. -/
def parseRobotlaser (self : CarmenLogReader) (line : String) :
    Option LaserScan2DRecord :=
  parseRobotlaserTok self (pySplit line)

/-- `_parse_flaser` on the whitespace-split token list of a line. -/
def parseFlaserTok (self : CarmenLogReader) (tok : List String) :
    Option LaserScan2DRecord := do
  let n ← (pyGet tok 1).bind pyInt?
  let ranges ← mapFloat? (pySlice tok 2 (2 + n))
  let idx : Int := 2 + n
  let x ← (pyGet tok idx).bind pyFloat?
  let y ← (pyGet tok (idx + 1)).bind pyFloat?
  let th ← (pyGet tok (idx + 2)).bind pyFloat?
  let robot_pose : Pose2D := ⟨x, y, th⟩
  let stamp ← (pyGet tok (-3)).bind pyFloat?
  let angle_min : ℚ := -mathPi / 2
  let angle_max : ℚ := mathPi / 2
  let angle_increment : ℚ := (angle_max - angle_min) / ((max (n - 1) 1 : Int) : ℚ)
  some { stamp := stamp, frame_id := self.scan_frame_id,
         angle_min := angle_min, angle_increment := angle_increment,
         range_min := 0, range_max := pyListMax ranges, ranges := ranges,
         robot_pose := some robot_pose, laser_pose := none,
         tv := none, rv := none }

/-- `_parse_flaser(line)`: split, then decode. -/
def parseFlaser (self : CarmenLogReader) (line : String) :
    Option LaserScan2DRecord :=
  parseFlaserTok self (pySplit line)

/-- `_parse_rlaser(line)`: delegates to `_parse_flaser`. -/
def parseRlaser (self : CarmenLogReader) (line : String) :
    Option LaserScan2DRecord :=
  parseFlaser self line

/-- The per-line body of `iter_scans`: skip empty and comment lines, then
dispatch on the leading tag; unrecognized tags yield no record. -/
def parseLine (self : CarmenLogReader) (line : String) :
    Option LaserScan2DRecord :=
  match line.data with
  | [] => none
  | c :: _ =>
    if c = '#' then none
    else if pyStartsWith line "ROBOTLASER" then parseRobotlaser self line
    else if pyStartsWith line "FLASER " then parseFlaser self line
    else if pyStartsWith line "RLASER " then parseRlaser self line
    else none

/-- `iter_scans` on the list of lines of the underlying stream: yield the
record of every line that decodes, drop every other line. -/
def iterScans (self : CarmenLogReader) (lines : List String) :
    List LaserScan2DRecord :=
  lines.filterMap (parseLine self)

/-! ### Helper lemmas about the Python-semantics primitives -/

theorem pyGet_natCast {α : Type*} (l : List α) (k : Nat) :
    pyGet l (k : Int) = l.get? k := by
  have h : ¬ ((k : Int) < 0) := by omega
  simp only [pyGet, pyIdxNorm, h, if_false, Int.toNat_natCast]

theorem pyGet_append_nat {α : Type*} (A B : List α) (k : Nat) :
    pyGet (A ++ B) ((A.length + k : Nat) : Int) = B.get? k := by
  rw [pyGet_natCast, List.get?_append_right (by omega)]
  congr 1
  omega

theorem pyGet_lt_of_eq_some {α : Type*} {l : List α} {i : Int} {a : α}
    (h0 : 0 ≤ i) (h : pyGet l i = some a) : i < (l.length : Int) := by
  have hnn : ¬ (i < 0) := by omega
  simp only [pyGet, pyIdxNorm, hnn, if_false, List.get?_eq_getElem?] at h
  have := (List.getElem?_eq_some.mp h).1
  omega

theorem pySlice_natCast {α : Type*} (l : List α) (a b : Nat) :
    pySlice l (a : Int) (b : Int) = (l.drop a).take (b - a) := by
  have ha : ¬ ((a : Int) < 0) := by omega
  have hb : ¬ ((b : Int) < 0) := by omega
  simp only [pySlice, pyClamp, pyIdxNorm, ha, hb, if_false, Int.toNat_natCast]
  rcases le_or_lt a l.length with h1 | h1
  · rw [Nat.min_eq_left h1, List.drop_take]
    rcases le_or_lt b l.length with h2 | h2
    · rw [Nat.min_eq_left h2]
    · rw [Nat.min_eq_right (le_of_lt h2)]
      rw [List.take_of_length_le (by simp only [List.length_drop]; omega),
        List.take_of_length_le (by simp only [List.length_drop]; omega)]
  · rw [Nat.min_eq_right (le_of_lt h1)]
    rw [List.drop_eq_nil_of_le (by simp only [List.length_take]; omega),
      List.drop_eq_nil_of_le (le_of_lt h1), List.take_nil]

theorem mapFloat?_length : ∀ {ts : List String} {vs : List ℚ},
    mapFloat? ts = some vs → vs.length = ts.length := by
  intro ts
  induction ts with
  | nil => intro vs h; simp [mapFloat?] at h; simp [← h]
  | cons t ts ih =>
    intro vs h
    simp only [mapFloat?, bind, Option.bind_eq_some, Option.some.injEq] at h
    obtain ⟨v, _, vs', hvs', rfl⟩ := h
    simp [ih hvs']

theorem mapFloat?_isSome : ∀ {ts : List String} {vs : List ℚ},
    mapFloat? ts = some vs → ∀ t ∈ ts, (pyFloat? t).isSome := by
  intro ts
  induction ts with
  | nil => intro vs _ t ht; simp at ht
  | cons t ts ih =>
    intro vs h u hu
    simp only [mapFloat?, bind, Option.bind_eq_some, Option.some.injEq] at h
    obtain ⟨v, hv, vs', hvs', rfl⟩ := h
    rcases List.mem_cons.mp hu with rfl | hu
    · simp [hv]
    · exact ih hvs' u hu

theorem foldl_max_le (l : List ℚ) (a : ℚ) :
    a ≤ l.foldl max a ∧ ∀ x ∈ l, x ≤ l.foldl max a := by
  induction l generalizing a with
  | nil => simp
  | cons y ys ih =>
    refine ⟨le_trans (le_max_left a y) (ih (max a y)).1, fun x hx => ?_⟩
    rcases List.mem_cons.mp hx with rfl | hx
    · exact le_trans (le_max_right a x) (ih (max a x)).1
    · exact (ih (max a y)).2 x hx

theorem foldl_max_mem (l : List ℚ) (a : ℚ) :
    l.foldl max a = a ∨ l.foldl max a ∈ l := by
  induction l generalizing a with
  | nil => left; rfl
  | cons y ys ih =>
    rcases ih (max a y) with h | h
    · rcases max_choice a y with hm | hm
      · left; simp only [List.foldl_cons]; rw [h, hm]
      · right; simp only [List.foldl_cons]; rw [h, hm]; exact List.mem_cons_self y ys
    · right; exact List.mem_cons_of_mem y h

theorem pyListMax_spec (l : List ℚ) (hl : l ≠ []) :
    pyListMax l ∈ l ∧ ∀ x ∈ l, x ≤ pyListMax l := by
  match l with
  | [] => exact absurd rfl hl
  | x :: xs =>
    constructor
    · rcases foldl_max_mem xs x with h | h
      · rw [pyListMax, h]; exact List.mem_cons_self x xs
      · rw [pyListMax]; exact List.mem_cons_of_mem x h
    · intro v hv
      rcases List.mem_cons.mp hv with rfl | hv
      · exact (foldl_max_le xs v).1
      · exact (foldl_max_le xs x).2 v hv

/-! ### Evaluation of the ROBOTLASER tail on a structurally well-formed line -/

theorem robotlaserTail_eq (self : CarmenLogReader)
    (front rems rest : List String)
    (tkr l1 l2 l3 r1 r2 r3 tvT rvT w1 w2 w3 ipcT : String)
    (sa ar mr : ℚ) (vals : List ℚ)
    (lx ly lyaw rx ry ryaw tvv rvv st : ℚ)
    (htkr : pyInt? tkr = some (rems.length : Int))
    (hl1 : pyFloat? l1 = some lx) (hl2 : pyFloat? l2 = some ly)
    (hl3 : pyFloat? l3 = some lyaw)
    (hr1 : pyFloat? r1 = some rx) (hr2 : pyFloat? r2 = some ry)
    (hr3 : pyFloat? r3 = some ryaw)
    (htv : pyFloat? tvT = some tvv) (hrvT : pyFloat? rvT = some rvv)
    (hipc : pyFloat? ipcT = some st) :
    robotlaserTail self
      (front ++ tkr :: (rems ++
        l1 :: l2 :: l3 :: r1 :: r2 :: r3 :: tvT :: rvT :: w1 :: w2 :: w3 :: ipcT :: rest))
      sa ar mr vals (front.length : Int)
    = some { stamp := st, frame_id := self.scan_frame_id, angle_min := sa,
             angle_increment := ar, range_min := 0, range_max := mr,
             ranges := vals, robot_pose := some ⟨rx, ry, ryaw⟩,
             laser_pose := some ⟨lx, ly, lyaw⟩, tv := some tvv, rv := some rvv } := by
  have hsplit : front ++ tkr :: (rems ++
      l1 :: l2 :: l3 :: r1 :: r2 :: r3 :: tvT :: rvT :: w1 :: w2 :: w3 :: ipcT :: rest)
      = (front ++ tkr :: rems) ++
        (l1 :: l2 :: l3 :: r1 :: r2 :: r3 :: tvT :: rvT :: w1 :: w2 :: w3 :: ipcT :: rest) := by
    simp
  rw [hsplit]
  set A := front ++ tkr :: rems with hAdef
  set X := l1 :: l2 :: l3 :: r1 :: r2 :: r3 :: tvT :: rvT :: w1 :: w2 :: w3 :: ipcT :: rest
    with hXdef
  have hAl : A.length = front.length + rems.length + 1 := by
    simp only [hAdef, List.length_append, List.length_cons]
    omega
  have g0 : pyGet (A ++ X) ((front.length : Int)) = some tkr := by
    rw [hAdef, List.append_assoc]
    have e : ((front.length : Int)) = ((front.length + 0 : Nat) : Int) := by push_cast; ring
    rw [e, pyGet_append_nat]
    rfl
  have g1 : pyGet (A ++ X)
      ((front.length : Int) + 1 + (rems.length : Int)) = some l1 := by
    have e : ((front.length : Int) + 1 + (rems.length : Int))
        = ((A.length + 0 : Nat) : Int) := by push_cast [hAl]; ring
    rw [e, pyGet_append_nat, hXdef]
    rfl
  have g2 : pyGet (A ++ X)
      ((front.length : Int) + 1 + (rems.length : Int) + 1) = some l2 := by
    have e : ((front.length : Int) + 1 + (rems.length : Int) + 1)
        = ((A.length + 1 : Nat) : Int) := by push_cast [hAl]; ring
    rw [e, pyGet_append_nat, hXdef]
    rfl
  have g3 : pyGet (A ++ X)
      ((front.length : Int) + 1 + (rems.length : Int) + 2) = some l3 := by
    have e : ((front.length : Int) + 1 + (rems.length : Int) + 2)
        = ((A.length + 2 : Nat) : Int) := by push_cast [hAl]; ring
    rw [e, pyGet_append_nat, hXdef]
    rfl
  have g4 : pyGet (A ++ X)
      ((front.length : Int) + 1 + (rems.length : Int) + 3) = some r1 := by
    have e : ((front.length : Int) + 1 + (rems.length : Int) + 3)
        = ((A.length + 3 : Nat) : Int) := by push_cast [hAl]; ring
    rw [e, pyGet_append_nat, hXdef]
    rfl
  have g5 : pyGet (A ++ X)
      ((front.length : Int) + 1 + (rems.length : Int) + 3 + 1) = some r2 := by
    have e : ((front.length : Int) + 1 + (rems.length : Int) + 3 + 1)
        = ((A.length + 4 : Nat) : Int) := by push_cast [hAl]; ring
    rw [e, pyGet_append_nat, hXdef]
    rfl
  have g6 : pyGet (A ++ X)
      ((front.length : Int) + 1 + (rems.length : Int) + 3 + 2) = some r3 := by
    have e : ((front.length : Int) + 1 + (rems.length : Int) + 3 + 2)
        = ((A.length + 5 : Nat) : Int) := by push_cast [hAl]; ring
    rw [e, pyGet_append_nat, hXdef]
    rfl
  have g7 : pyGet (A ++ X)
      ((front.length : Int) + 1 + (rems.length : Int) + 3 + 3) = some tvT := by
    have e : ((front.length : Int) + 1 + (rems.length : Int) + 3 + 3)
        = ((A.length + 6 : Nat) : Int) := by push_cast [hAl]; ring
    rw [e, pyGet_append_nat, hXdef]
    rfl
  have g8 : pyGet (A ++ X)
      ((front.length : Int) + 1 + (rems.length : Int) + 3 + 3 + 1) = some rvT := by
    have e : ((front.length : Int) + 1 + (rems.length : Int) + 3 + 3 + 1)
        = ((A.length + 7 : Nat) : Int) := by push_cast [hAl]; ring
    rw [e, pyGet_append_nat, hXdef]
    rfl
  have g9 : pyGet (A ++ X)
      ((front.length : Int) + 1 + (rems.length : Int) + 3 + 3 + 2 + 3) = some ipcT := by
    have e : ((front.length : Int) + 1 + (rems.length : Int) + 3 + 3 + 2 + 3)
        = ((A.length + 11 : Nat) : Int) := by push_cast [hAl]; ring
    rw [e, pyGet_append_nat, hXdef]
    rfl
  simp [robotlaserTail, g0, htkr, g1, hl1, g2, hl2, g3, hl3, g4, hr1, g5, hr2,
    g6, hr3, g7, htv, g8, hrvT, g9, hipc]

/-- Evaluation of `_parse_robotlaser` on a well-formed Layout-A token list:
header, `n` ranges, remission count ≤ `n`, remission values, poses,
velocities, safety fields, trailer.  With `rems.length ≤ rs.length` the
leftover-token count is `15 + rems.length ≤ 15 + n`, so the resolver
classifies the line as Layout A. -/
theorem parseRobotlaserTok_layoutA (self : CarmenLogReader)
    (tag s1 s2 s3 s4 s5 s6 s7 s8 : String) (rs rems : List String)
    (tkr l1 l2 l3 r1 r2 r3 tvT rvT w1 w2 w3 ipcT hostT logT : String)
    (lt rm : Int) (sa fov ar mr acc : ℚ) (vals : List ℚ)
    (lx ly lyaw rx ry ryaw tvv rvv st : ℚ)
    (h1 : pyInt? s1 = some lt) (h2 : pyFloat? s2 = some sa)
    (h3 : pyFloat? s3 = some fov) (h4 : pyFloat? s4 = some ar)
    (h5 : pyFloat? s5 = some mr) (h6 : pyFloat? s6 = some acc)
    (h7 : pyInt? s7 = some rm) (h8 : pyInt? s8 = some (rs.length : Int))
    (hrs : mapFloat? rs = some vals)
    (htkr : pyInt? tkr = some (rems.length : Int))
    (hr_le : rems.length ≤ rs.length)
    (hl1 : pyFloat? l1 = some lx) (hl2 : pyFloat? l2 = some ly)
    (hl3 : pyFloat? l3 = some lyaw)
    (hr1 : pyFloat? r1 = some rx) (hr2 : pyFloat? r2 = some ry)
    (hr3 : pyFloat? r3 = some ryaw)
    (htv : pyFloat? tvT = some tvv) (hrvT : pyFloat? rvT = some rvv)
    (hipc : pyFloat? ipcT = some st) :
    parseRobotlaserTok self
      ([tag, s1, s2, s3, s4, s5, s6, s7, s8] ++ rs ++ tkr :: (rems ++
        l1 :: l2 :: l3 :: r1 :: r2 :: r3 :: tvT :: rvT :: w1 :: w2 :: w3 ::
        ipcT :: hostT :: logT :: []))
    = some { stamp := st, frame_id := self.scan_frame_id, angle_min := sa,
             angle_increment := ar, range_min := 0, range_max := mr,
             ranges := vals, robot_pose := some ⟨rx, ry, ryaw⟩,
             laser_pose := some ⟨lx, ly, lyaw⟩, tv := some tvv, rv := some rvv } := by
  set tok : List String := [tag, s1, s2, s3, s4, s5, s6, s7, s8] ++ rs ++ tkr :: (rems ++
    l1 :: l2 :: l3 :: r1 :: r2 :: r3 :: tvT :: rvT :: w1 :: w2 :: w3 ::
    ipcT :: hostT :: logT :: []) with htokdef
  have a1 : pyGet tok 1 = some s1 := by rw [htokdef]; rfl
  have a2 : pyGet tok 2 = some s2 := by rw [htokdef]; rfl
  have a3 : pyGet tok 3 = some s3 := by rw [htokdef]; rfl
  have a4 : pyGet tok 4 = some s4 := by rw [htokdef]; rfl
  have a5 : pyGet tok 5 = some s5 := by rw [htokdef]; rfl
  have a6 : pyGet tok 6 = some s6 := by rw [htokdef]; rfl
  have a7 : pyGet tok 7 = some s7 := by rw [htokdef]; rfl
  have a8 : pyGet tok 8 = some s8 := by rw [htokdef]; rfl
  have hslice : pySlice tok 9 (9 + (rs.length : Int)) = rs := by
    have e : (9 : Int) + (rs.length : Int) = ((9 + rs.length : Nat) : Int) := by
      push_cast; ring
    have e2 : (9 : Int) = ((9 : Nat) : Int) := by norm_cast
    rw [e, e2, pySlice_natCast, Nat.add_sub_cancel_left]
    have hdrop : tok.drop 9 = rs ++ (tkr :: (rems ++
        l1 :: l2 :: l3 :: r1 :: r2 :: r3 :: tvT :: rvT :: w1 :: w2 :: w3 ::
        ipcT :: hostT :: logT :: [])) := by rw [htokdef]; rfl
    rw [hdrop, List.take_left]
  have hlen : tok.length = 9 + rs.length + 1 + rems.length + 14 := by
    rw [htokdef]
    simp only [List.length_append, List.length_cons, List.length_nil]
    omega
  have hcond : ¬ ((tok.length : Int) - (9 + (rs.length : Int)) > 15 + (rs.length : Int)) := by
    push_cast [hlen]
    omega
  have hshape : tok = (([tag, s1, s2, s3, s4, s5, s6, s7, s8] ++ rs) ++ tkr :: (rems ++
      l1 :: l2 :: l3 :: r1 :: r2 :: r3 :: tvT :: rvT :: w1 :: w2 :: w3 ::
      ipcT :: hostT :: logT :: [])) := by
    rw [htokdef]
  have hidx : (9 : Int) + (rs.length : Int)
      = ((([tag, s1, s2, s3, s4, s5, s6, s7, s8] ++ rs).length : Nat) : Int) := by
    simp only [List.length_append, List.length_cons, List.length_nil]
    push_cast
    ring
  have htail := robotlaserTail_eq self ([tag, s1, s2, s3, s4, s5, s6, s7, s8] ++ rs)
    rems (hostT :: logT :: []) tkr l1 l2 l3 r1 r2 r3 tvT rvT w1 w2 w3 ipcT
    sa ar mr vals lx ly lyaw rx ry ryaw tvv rvv st
    htkr hl1 hl2 hl3 hr1 hr2 hr3 htv hrvT hipc
  rw [← hshape] at htail
  simp only [parseRobotlaserTok, a1, a2, a3, a4, a5, a6, a7, a8,
    h1, h2, h3, h4, h5, h6, h7, h8, hslice, hrs, bind, Option.some_bind]
  rw [if_neg hcond, hidx]
  exact htail

/-- Evaluation of `_parse_robotlaser` on a well-formed Layout-B token list:
as Layout A but with `n` flag tokens inserted between the range run and
the remission count, and with a positive remission count.  With
`0 < rems.length` the leftover-token count is `n + 15 + rems.length >
15 + n`, so the resolver classifies the line as Layout B and skips the
`n` flag tokens. -/
theorem parseRobotlaserTok_layoutB (self : CarmenLogReader)
    (tag s1 s2 s3 s4 s5 s6 s7 s8 : String) (rs fs rems : List String)
    (tkr l1 l2 l3 r1 r2 r3 tvT rvT w1 w2 w3 ipcT hostT logT : String)
    (lt rm : Int) (sa fov ar mr acc : ℚ) (vals : List ℚ)
    (lx ly lyaw rx ry ryaw tvv rvv st : ℚ)
    (h1 : pyInt? s1 = some lt) (h2 : pyFloat? s2 = some sa)
    (h3 : pyFloat? s3 = some fov) (h4 : pyFloat? s4 = some ar)
    (h5 : pyFloat? s5 = some mr) (h6 : pyFloat? s6 = some acc)
    (h7 : pyInt? s7 = some rm) (h8 : pyInt? s8 = some (rs.length : Int))
    (hrs : mapFloat? rs = some vals)
    (hfs : fs.length = rs.length)
    (htkr : pyInt? tkr = some (rems.length : Int))
    (hr_pos : 0 < rems.length)
    (hl1 : pyFloat? l1 = some lx) (hl2 : pyFloat? l2 = some ly)
    (hl3 : pyFloat? l3 = some lyaw)
    (hr1 : pyFloat? r1 = some rx) (hr2 : pyFloat? r2 = some ry)
    (hr3 : pyFloat? r3 = some ryaw)
    (htv : pyFloat? tvT = some tvv) (hrvT : pyFloat? rvT = some rvv)
    (hipc : pyFloat? ipcT = some st) :
    parseRobotlaserTok self
      ([tag, s1, s2, s3, s4, s5, s6, s7, s8] ++ rs ++ fs ++ tkr :: (rems ++
        l1 :: l2 :: l3 :: r1 :: r2 :: r3 :: tvT :: rvT :: w1 :: w2 :: w3 ::
        ipcT :: hostT :: logT :: []))
    = some { stamp := st, frame_id := self.scan_frame_id, angle_min := sa,
             angle_increment := ar, range_min := 0, range_max := mr,
             ranges := vals, robot_pose := some ⟨rx, ry, ryaw⟩,
             laser_pose := some ⟨lx, ly, lyaw⟩, tv := some tvv, rv := some rvv } := by
  set tok : List String := [tag, s1, s2, s3, s4, s5, s6, s7, s8] ++ rs ++ fs ++ tkr :: (rems ++
    l1 :: l2 :: l3 :: r1 :: r2 :: r3 :: tvT :: rvT :: w1 :: w2 :: w3 ::
    ipcT :: hostT :: logT :: []) with htokdef
  have a1 : pyGet tok 1 = some s1 := by rw [htokdef]; rfl
  have a2 : pyGet tok 2 = some s2 := by rw [htokdef]; rfl
  have a3 : pyGet tok 3 = some s3 := by rw [htokdef]; rfl
  have a4 : pyGet tok 4 = some s4 := by rw [htokdef]; rfl
  have a5 : pyGet tok 5 = some s5 := by rw [htokdef]; rfl
  have a6 : pyGet tok 6 = some s6 := by rw [htokdef]; rfl
  have a7 : pyGet tok 7 = some s7 := by rw [htokdef]; rfl
  have a8 : pyGet tok 8 = some s8 := by rw [htokdef]; rfl
  have hslice : pySlice tok 9 (9 + (rs.length : Int)) = rs := by
    have e : (9 : Int) + (rs.length : Int) = ((9 + rs.length : Nat) : Int) := by
      push_cast; ring
    have e2 : (9 : Int) = ((9 : Nat) : Int) := by norm_cast
    rw [e, e2, pySlice_natCast, Nat.add_sub_cancel_left]
    have hdrop : tok.drop 9 = rs ++ fs ++ tkr :: (rems ++
        l1 :: l2 :: l3 :: r1 :: r2 :: r3 :: tvT :: rvT :: w1 :: w2 :: w3 ::
        ipcT :: hostT :: logT :: []) := by rw [htokdef]; rfl
    rw [hdrop, List.append_assoc, List.take_left]
  have hlen : tok.length = 9 + rs.length + fs.length + 1 + rems.length + 14 := by
    rw [htokdef]
    simp only [List.length_append, List.length_cons, List.length_nil]
    omega
  have hcond : (tok.length : Int) - (9 + (rs.length : Int)) > 15 + (rs.length : Int) := by
    push_cast [hlen, hfs]
    omega
  have hshape : tok = (([tag, s1, s2, s3, s4, s5, s6, s7, s8] ++ rs ++ fs) ++ tkr :: (rems ++
      l1 :: l2 :: l3 :: r1 :: r2 :: r3 :: tvT :: rvT :: w1 :: w2 :: w3 ::
      ipcT :: hostT :: logT :: [])) := by
    rw [htokdef]
  have hidx : (9 : Int) + (rs.length : Int) + (rs.length : Int)
      = ((([tag, s1, s2, s3, s4, s5, s6, s7, s8] ++ rs ++ fs).length : Nat) : Int) := by
    simp only [List.length_append, List.length_cons, List.length_nil]
    push_cast [hfs]
    ring
  have htail := robotlaserTail_eq self ([tag, s1, s2, s3, s4, s5, s6, s7, s8] ++ rs ++ fs)
    rems (hostT :: logT :: []) tkr l1 l2 l3 r1 r2 r3 tvT rvT w1 w2 w3 ipcT
    sa ar mr vals lx ly lyaw rx ry ryaw tvv rvv st
    htkr hl1 hl2 hl3 hr1 hr2 hr3 htv hrvT hipc
  rw [← hshape] at htail
  simp only [parseRobotlaserTok, a1, a2, a3, a4, a5, a6, a7, a8,
    h1, h2, h3, h4, h5, h6, h7, h8, hslice, hrs, bind, Option.some_bind]
  rw [if_pos hcond, hidx]
  exact htail

/-- Python `l[-3]` on a list ending in three known elements: the
third-from-last element. -/
theorem pyGet_neg3 {α : Type*} (P : List α) (a b c : α) :
    pyGet (P ++ [a, b, c]) (-3) = some a := by
  have hlen : (P ++ [a, b, c]).length = P.length + 3 := by simp
  simp only [pyGet, pyIdxNorm, hlen]
  rw [if_pos (by norm_num : (-3 : Int) < 0)]
  have e : (-3 : Int) + ((P.length + 3 : Nat) : Int) = ((P.length : Nat) : Int) := by
    push_cast; ring
  rw [e, if_neg (by omega), Int.toNat_natCast,
    List.get?_append_right (le_refl _), Nat.sub_self]
  rfl

/-- Evaluation of `_parse_flaser` on a structurally well-formed legacy token
list: tag, beam count, `n` ranges, pose triple, optional extra fields, and
the three-token trailer whose first entry (third-from-last token of the
line) becomes the stamp. -/
theorem parseFlaserTok_eq (self : CarmenLogReader)
    (tagT nT xT yT thT : String) (rs mid : List String)
    (ipcT hostT logT : String) (vals : List ℚ) (x y th st : ℚ)
    (hn : pyInt? nT = some (rs.length : Int))
    (hrs : mapFloat? rs = some vals)
    (hx : pyFloat? xT = some x) (hy : pyFloat? yT = some y)
    (hth : pyFloat? thT = some th)
    (hipc : pyFloat? ipcT = some st) :
    parseFlaserTok self
      (tagT :: nT :: (rs ++ xT :: yT :: thT :: (mid ++ ipcT :: hostT :: logT :: [])))
    = some { stamp := st, frame_id := self.scan_frame_id,
             angle_min := -mathPi / 2,
             angle_increment := (mathPi / 2 - -mathPi / 2) /
               ((max ((rs.length : Int) - 1) 1 : Int) : ℚ),
             range_min := 0, range_max := pyListMax vals, ranges := vals,
             robot_pose := some ⟨x, y, th⟩, laser_pose := none,
             tv := none, rv := none } := by
  set tok : List String :=
    tagT :: nT :: (rs ++ xT :: yT :: thT :: (mid ++ ipcT :: hostT :: logT :: []))
    with htokdef
  have a1 : pyGet tok 1 = some nT := by rw [htokdef]; rfl
  have hslice : pySlice tok 2 (2 + (rs.length : Int)) = rs := by
    have e : (2 : Int) + (rs.length : Int) = ((2 + rs.length : Nat) : Int) := by
      push_cast; ring
    have e2 : (2 : Int) = ((2 : Nat) : Int) := by norm_cast
    rw [e, e2, pySlice_natCast, Nat.add_sub_cancel_left]
    have hdrop : tok.drop 2 = rs ++ xT :: yT :: thT :: (mid ++ ipcT :: hostT :: logT :: []) := by
      rw [htokdef]
      rfl
    rw [hdrop, List.take_left]
  have hshape : tok = (tagT :: nT :: rs) ++ xT :: yT :: thT :: (mid ++ ipcT :: hostT :: logT :: []) := by
    rw [htokdef]
    simp
  have hplen : (tagT :: nT :: rs).length = 2 + rs.length := by
    simp only [List.length_cons]
    omega
  have ax : pyGet tok (2 + (rs.length : Int)) = some xT := by
    rw [hshape]
    have e : (2 : Int) + (rs.length : Int) = (((tagT :: nT :: rs).length + 0 : Nat) : Int) := by
      push_cast [hplen]; ring
    rw [e, pyGet_append_nat]
    rfl
  have ay : pyGet tok (2 + (rs.length : Int) + 1) = some yT := by
    rw [hshape]
    have e : (2 : Int) + (rs.length : Int) + 1 = (((tagT :: nT :: rs).length + 1 : Nat) : Int) := by
      push_cast [hplen]; ring
    rw [e, pyGet_append_nat]
    rfl
  have ath : pyGet tok (2 + (rs.length : Int) + 2) = some thT := by
    rw [hshape]
    have e : (2 : Int) + (rs.length : Int) + 2 = (((tagT :: nT :: rs).length + 2 : Nat) : Int) := by
      push_cast [hplen]; ring
    rw [e, pyGet_append_nat]
    rfl
  have hstamp : pyGet tok (-3) = some ipcT := by
    have hshape2 : tok = (tagT :: nT :: (rs ++ xT :: yT :: thT :: mid)) ++ [ipcT, hostT, logT] := by
      rw [htokdef]
      simp
    rw [hshape2, pyGet_neg3]
  simp only [parseFlaserTok, a1, hn, hslice, hrs, ax, hx, ay, hy, ath, hth,
    hstamp, hipc, bind, Option.some_bind]

/-- Inversion of a successful `_parse_flaser` decode: the beam count and
range run parsed, the record carries exactly the parsed ranges, and the
pose-x access at token position `2 + n` succeeded. -/
theorem parseFlaserTok_inv (self : CarmenLogReader) (tok : List String)
    (rec : LaserScan2DRecord) (h : parseFlaserTok self tok = some rec) :
    ∃ n : Int, (pyGet tok 1).bind pyInt? = some n ∧
      ∃ vals : List ℚ, mapFloat? (pySlice tok 2 (2 + n)) = some vals ∧
        rec.ranges = vals ∧ ∃ t, pyGet tok (2 + n) = some t := by
  simp only [parseFlaserTok, bind, Option.bind_eq_some, Option.some.injEq] at h
  obtain ⟨n, ⟨tn, htn, hin⟩, vals, hvals, x, ⟨tx, htx, hfx⟩, y, ⟨ty, hty, hfy⟩,
    th, ⟨tth, htth, hfth⟩, st, ⟨tst, htst, hfst⟩, hrec⟩ := h
  refine ⟨n, ?_, vals, hvals, by rw [← hrec], tx, htx⟩
  rw [htn]
  exact hin

/-- Inversion of a successful `robotlaserTail` run: the produced record
carries exactly the ranges passed in, and the remission-count access at the
start position succeeded. -/
theorem robotlaserTail_inv (self : CarmenLogReader) (tok : List String)
    (sa ar mr : ℚ) (vals : List ℚ) (idx0 : Int) (rec : LaserScan2DRecord)
    (h : robotlaserTail self tok sa ar mr vals idx0 = some rec) :
    rec.ranges = vals ∧ ∃ t, pyGet tok idx0 = some t := by
  simp only [robotlaserTail, bind, Option.bind_eq_some, Option.some.injEq] at h
  obtain ⟨nr, ⟨tnr, htnr, hinr⟩, lx, hlx, ly, hly, lyaw, hlyaw, rx, hrx,
    ry, hry, ryaw, hryaw, tv, htv, rv, hrv, st, hst, hrec⟩ := h
  exact ⟨by rw [← hrec], tnr, htnr⟩

/-- Inversion of a successful `_parse_robotlaser` decode: the beam count
and range run parsed, the record carries exactly the parsed ranges, and the
remission-count access at the layout-resolved position succeeded. -/
theorem parseRobotlaserTok_inv (self : CarmenLogReader) (tok : List String)
    (rec : LaserScan2DRecord) (h : parseRobotlaserTok self tok = some rec) :
    ∃ n : Int, (pyGet tok 8).bind pyInt? = some n ∧
      ∃ vals : List ℚ, mapFloat? (pySlice tok 9 (9 + n)) = some vals ∧
        rec.ranges = vals ∧
        ∃ t, pyGet tok
          (if (tok.length : Int) - (9 + n) > 15 + n then 9 + n + n else 9 + n)
          = some t := by
  simp only [parseRobotlaserTok, bind, Option.bind_eq_some] at h
  obtain ⟨lt, ⟨t1, ht1, hi1⟩, sa, ⟨t2, ht2, hi2⟩, fov, ⟨t3, ht3, hi3⟩,
    ar, ⟨t4, ht4, hi4⟩, mr, ⟨t5, ht5, hi5⟩, acc, ⟨t6, ht6, hi6⟩,
    rm, ⟨t7, ht7, hi7⟩, n, ⟨t8, ht8, hi8⟩, vals, hvals, htail⟩ := h
  obtain ⟨hranges, t, ht⟩ := robotlaserTail_inv self tok sa ar mr vals _ rec htail
  refine ⟨n, ?_, vals, hvals, hranges, t, ht⟩
  rw [ht8]
  exact hi8

/-! ### Concrete demonstration inputs used by witnesses and counterexamples -/

/-- A reader with the default configuration (`frame_id = "laser"`). -/
def aReader : CarmenLogReader := {}

/-- A well-formed Layout-A ROBOTLASER line with `n = 1`, one remission
value, poses (1,2,3) and (4,5,6), velocities 0.2 / 0.3, and IPC
timestamp 100.5. -/
def rlLineA1 : String :=
  "ROBOTLASER1 0 0.1 3.14 0.01 30.0 0.01 0 1 5.5 1 7.5 1.0 2.0 3.0 4.0 5.0 6.0 0.2 0.3 7.0 8.0 9.0 100.5 host 101.0"

/-- The legacy-format test line of the specification. -/
def flaserTestLine : String :=
  "FLASER 3 1.0 2.0 3.0 0.5 0.5 0.0 0.5 0.5 0.0 1000.0 host 1000.1"

/-! ### Claim theorems -/

/-- C1: for every ROBOTLASER line on which the header and the `n`-token
range run decode, the decoder computes `remaining = (token count) - (9 + n)`
(the position after the range run); if `remaining > 15 + n` it classifies
the line as Layout B and advances the position by exactly `n` tokens before
reading the remission count (the first read of `robotlaserTail` at its
start position), otherwise it classifies the line as Layout A and reads the
remission count at the current position `9 + n`. -/
theorem c1_layout_resolution (self : CarmenLogReader) (tok : List String)
    (lt rm n : Int) (sa fov ar mr acc : ℚ) (vals : List ℚ)
    (h1 : (pyGet tok 1).bind pyInt? = some lt)
    (h2 : (pyGet tok 2).bind pyFloat? = some sa)
    (h3 : (pyGet tok 3).bind pyFloat? = some fov)
    (h4 : (pyGet tok 4).bind pyFloat? = some ar)
    (h5 : (pyGet tok 5).bind pyFloat? = some mr)
    (h6 : (pyGet tok 6).bind pyFloat? = some acc)
    (h7 : (pyGet tok 7).bind pyInt? = some rm)
    (h8 : (pyGet tok 8).bind pyInt? = some n)
    (hrs : mapFloat? (pySlice tok 9 (9 + n)) = some vals) :
    parseRobotlaserTok self tok
      = robotlaserTail self tok sa ar mr vals
          (if (tok.length : Int) - (9 + n) > 15 + n then 9 + n + n else 9 + n) := by
  simp only [parseRobotlaserTok, h1, h2, h3, h4, h5, h6, h7, h8, hrs,
    bind, Option.some_bind]

/-- Witness for C1 at the concrete Layout-A line `rlLineA1` (`n = 1`). -/
theorem c1_layout_resolution_witness :
    parseRobotlaserTok aReader (pySplit rlLineA1)
      = robotlaserTail aReader (pySplit rlLineA1) (1/10) (1/100) 30 [11/2]
          (if ((pySplit rlLineA1).length : Int) - (9 + 1) > 15 + 1
           then 9 + 1 + 1 else 9 + 1) :=
  c1_layout_resolution aReader (pySplit rlLineA1) 0 0 1 (1/10) (157/50) (1/100)
    30 (1/100) [11/2] (by with_unfolding_all decide) (by with_unfolding_all decide)
    (by with_unfolding_all decide) (by with_unfolding_all decide)
    (by with_unfolding_all decide) (by with_unfolding_all decide)
    (by with_unfolding_all decide) (by with_unfolding_all decide)
    (by with_unfolding_all decide)

/-- C9: for every input line and both settings of the
`prefer_message_timestamp` flag, decoding produces the same result; the
flag has no effect on any decoded field. -/
theorem c9_prefer_flag_noop (fid : String) (b1 b2 : Bool)
    (line : String) (lines : List String) :
    parseLine { scan_frame_id := fid, prefer_message_timestamp := b1 } line
      = parseLine { scan_frame_id := fid, prefer_message_timestamp := b2 } line ∧
    iterScans { scan_frame_id := fid, prefer_message_timestamp := b1 } lines
      = iterScans { scan_frame_id := fid, prefer_message_timestamp := b2 } lines :=
  ⟨rfl, rfl⟩

/-- C4: iterating the scan sequence never propagates a per-line decode
failure: the number of produced records equals the number of lines whose
decode succeeds (so a stream of `N` well-formed and `M` malformed
recognized-tag lines yields at most `N` records), and every produced
record originates from some line that decodes to it — never from a
malformed line. -/
theorem c4_malformed_lines_dropped (self : CarmenLogReader) (lines : List String) :
    (iterScans self lines).length
        = lines.countP (fun l => (parseLine self l).isSome) ∧
    ∀ rec ∈ iterScans self lines, ∃ l ∈ lines, parseLine self l = some rec := by
  constructor
  · induction lines with
    | nil => rfl
    | cons l ls ih =>
      cases hf : parseLine self l with
      | none =>
        simp only [iterScans, List.filterMap_cons, hf, List.countP_cons] at ih ⊢
        simp [hf, ih]
      | some r =>
        simp only [iterScans, List.filterMap_cons, hf, List.countP_cons] at ih ⊢
        simp [hf, ih]
  · intro rec hrec
    exact List.mem_filterMap.mp hrec

/-- Length of a fully in-bounds Python slice. -/
theorem pySlice_length_of_le {α : Type*} (l : List α) (a k : Nat)
    (h : a + k ≤ l.length) :
    (pySlice l ((a : Nat) : Int) ((a + k : Nat) : Int)).length = k := by
  rw [pySlice_natCast]
  simp only [List.length_take, List.length_drop, Nat.add_sub_cancel_left]
  omega

/-- Lines used by the C4 witness: a comment, a blank line, a well-formed
ROBOTLASER line, a malformed recognized-tag line, an unrecognized tag. -/
def demoLines : List String :=
  ["# c", "", rlLineA1, "FLASER 5 1.0", "ODO 1"]

/-- The record decoded from the well-formed line of `demoLines`. -/
def rlDemoRec : LaserScan2DRecord :=
  { stamp := 201/2, frame_id := "laser", angle_min := 1/10,
    angle_increment := 1/100, range_min := 0, range_max := 30,
    ranges := [11/2], robot_pose := some ⟨4, 5, 6⟩,
    laser_pose := some ⟨1, 2, 3⟩, tv := some (1/5), rv := some (3/10) }

/-- Witness for C4 on a concrete mixed stream. -/
theorem c4_malformed_lines_dropped_witness :
    (iterScans aReader demoLines).length
        = demoLines.countP (fun l => (parseLine aReader l).isSome) ∧
    ∃ l ∈ demoLines, parseLine aReader l = some rlDemoRec :=
  ⟨(c4_malformed_lines_dropped aReader demoLines).1,
   (c4_malformed_lines_dropped aReader demoLines).2 rlDemoRec
     (List.mem_filterMap.mpr
       ⟨rlLineA1, by decide, by with_unfolding_all decide⟩)⟩

/-- C2 (amended): for every line whose declared beam count `n` is
nonnegative, a record produced by either decoder has exactly `n` ranges.
(As stated, over every declared beam count, the claim fails: Python's
clamping slices and wrap-around negative indexing let a line with a
negative declared beam count decode — see the counterexample.) -/
theorem c2_ranges_length (self : CarmenLogReader) (tokR tokF : List String)
    (n m : Int)
    (hn : (pyGet tokR 8).bind pyInt? = some n) (hn0 : 0 ≤ n)
    (hm : (pyGet tokF 1).bind pyInt? = some m) (hm0 : 0 ≤ m) :
    ((parseRobotlaserTok self tokR).isSome →
      (parseRobotlaserTok self tokR).map (fun r => (r.ranges.length : Int))
        = some n) ∧
    ((parseFlaserTok self tokF).isSome →
      (parseFlaserTok self tokF).map (fun r => (r.ranges.length : Int))
        = some m) := by
  constructor
  · intro hs
    obtain ⟨rec, hrec⟩ := Option.isSome_iff_exists.mp hs
    obtain ⟨n', hn', vals, hvals, hranges, t, ht⟩ :=
      parseRobotlaserTok_inv self tokR rec hrec
    have hnn : n' = n := Option.some.inj (hn'.symm.trans hn)
    subst hnn
    have hlen : (9 : Int) + n' < (tokR.length : Int) := by
      by_cases hC : (tokR.length : Int) - (9 + n') > 15 + n'
      · omega
      · rw [if_neg hC] at ht
        exact pyGet_lt_of_eq_some (by omega) ht
    have hnN : n' = ((n'.toNat : Nat) : Int) := by omega
    rw [hnN] at hvals hlen
    rw [show (9 : Int) + ((n'.toNat : Nat) : Int)
        = ((9 + n'.toNat : Nat) : Int) by push_cast; ring] at hvals
    rw [show (9 : Int) = ((9 : Nat) : Int) by norm_cast] at hvals
    have hslicelen := pySlice_length_of_le tokR 9 n'.toNat (by omega)
    have hvl := mapFloat?_length hvals
    rw [hrec]
    simp only [Option.map_some']
    rw [hranges, hvl, hslicelen]
    exact congrArg some hnN.symm
  · intro hs
    obtain ⟨rec, hrec⟩ := Option.isSome_iff_exists.mp hs
    obtain ⟨m', hm', vals, hvals, hranges, t, ht⟩ :=
      parseFlaserTok_inv self tokF rec hrec
    have hmm : m' = m := Option.some.inj (hm'.symm.trans hm)
    subst hmm
    have hlen : (2 : Int) + m' < (tokF.length : Int) :=
      pyGet_lt_of_eq_some (by omega) ht
    have hnN : m' = ((m'.toNat : Nat) : Int) := by omega
    rw [hnN] at hvals hlen
    rw [show (2 : Int) + ((m'.toNat : Nat) : Int)
        = ((2 + m'.toNat : Nat) : Int) by push_cast; ring] at hvals
    rw [show (2 : Int) = ((2 : Nat) : Int) by norm_cast] at hvals
    have hslicelen := pySlice_length_of_le tokF 2 m'.toNat (by omega)
    have hvl := mapFloat?_length hvals
    rw [hrec]
    simp only [Option.map_some']
    rw [hranges, hvl, hslicelen]
    exact congrArg some hnN.symm

/-- C2 counterexample: the line `"FLASER -1 5.0 6.0 7.0 8.0 9.0 10.0"`
declares beam count `-1`, yet the decoder emits a record whose ranges list
has length `0 ≠ -1` (the slice `tok[2:1]` clamps to empty, and the pose
fields are read from wrapped positions without raising). -/
theorem c2_counterexample :
    (pyGet (pySplit "FLASER -1 5.0 6.0 7.0 8.0 9.0 10.0") 1).bind pyInt?
        = some (-1) ∧
    (parseLine aReader "FLASER -1 5.0 6.0 7.0 8.0 9.0 10.0").map
        (fun r => (r.ranges.length : Int)) = some 0 ∧
    (0 : Int) ≠ -1 := by
  with_unfolding_all decide

/-- Witness for C2 at the concrete ROBOTLASER line `rlLineA1` (`n = 1`)
and the legacy test line (`n = 3`). -/
theorem c2_ranges_length_witness :
    ((parseRobotlaserTok aReader (pySplit rlLineA1)).map
        (fun r => (r.ranges.length : Int)) = some 1) ∧
    ((parseFlaserTok aReader (pySplit flaserTestLine)).map
        (fun r => (r.ranges.length : Int)) = some 3) :=
  ⟨(c2_ranges_length aReader (pySplit rlLineA1) (pySplit flaserTestLine) 1 3
      (by with_unfolding_all decide) (by with_unfolding_all decide)
      (by with_unfolding_all decide) (by with_unfolding_all decide)).1
    (by with_unfolding_all decide),
   (c2_ranges_length aReader (pySplit rlLineA1) (pySplit flaserTestLine) 1 3
      (by with_unfolding_all decide) (by with_unfolding_all decide)
      (by with_unfolding_all decide) (by with_unfolding_all decide)).2
    (by with_unfolding_all decide)⟩

/-- C8: a line with declared beam count 5 but fewer than 5 float-parsable
tokens after the beam-count field never produces a record, for both the
legacy decoder (beam count at token 1) and the robot-laser decoder (beam
count at token 8).  `parseLine` routes every recognized tag to one of
these two decoders, so no recognized-tag line of this form yields a
record. -/
theorem c8_beam_count_five (self : CarmenLogReader) (tokF tokR : List String)
    (hm : (pyGet tokF 1).bind pyInt? = some 5)
    (hcF : (tokF.drop 2).countP (fun t => (pyFloat? t).isSome) < 5)
    (hn : (pyGet tokR 8).bind pyInt? = some 5)
    (hcR : (tokR.drop 9).countP (fun t => (pyFloat? t).isSome) < 5) :
    parseFlaserTok self tokF = none ∧ parseRobotlaserTok self tokR = none := by
  constructor
  · by_contra hne
    obtain ⟨rec, hrec⟩ := Option.ne_none_iff_exists'.mp hne
    obtain ⟨m', hm', vals, hvals, _, t, ht⟩ := parseFlaserTok_inv self tokF rec hrec
    have h5 : m' = 5 := Option.some.inj (hm'.symm.trans hm)
    subst h5
    have hlt : (2 : Int) + 5 < (tokF.length : Int) :=
      pyGet_lt_of_eq_some (by norm_num) ht
    rw [show ((2 : Int) + 5) = ((2 + 5 : Nat) : Int) by norm_cast,
      show (2 : Int) = ((2 : Nat) : Int) by norm_cast, pySlice_natCast,
      show (2 + 5 - 2 : Nat) = 5 from rfl] at hvals
    have hall := mapFloat?_isSome hvals
    have hlen5 : ((tokF.drop 2).take 5).length = 5 := by
      simp only [List.length_take, List.length_drop]
      omega
    have hcnt : ((tokF.drop 2).take 5).countP (fun u => (pyFloat? u).isSome) = 5 := by
      rw [List.countP_eq_length.mpr hall, hlen5]
    rw [← List.take_append_drop 5 (tokF.drop 2), List.countP_append, hcnt] at hcF
    omega
  · by_contra hne
    obtain ⟨rec, hrec⟩ := Option.ne_none_iff_exists'.mp hne
    obtain ⟨n', hn', vals, hvals, _, t, ht⟩ := parseRobotlaserTok_inv self tokR rec hrec
    have h5 : n' = 5 := Option.some.inj (hn'.symm.trans hn)
    subst h5
    have hlt : (9 : Int) + 5 < (tokR.length : Int) := by
      by_cases hC : (tokR.length : Int) - (9 + 5) > 15 + 5
      · omega
      · rw [if_neg hC] at ht
        have := pyGet_lt_of_eq_some (by norm_num) ht
        omega
    rw [show ((9 : Int) + 5) = ((9 + 5 : Nat) : Int) by norm_cast,
      show (9 : Int) = ((9 : Nat) : Int) by norm_cast, pySlice_natCast,
      show (9 + 5 - 9 : Nat) = 5 from rfl] at hvals
    have hall := mapFloat?_isSome hvals
    have hlen5 : ((tokR.drop 9).take 5).length = 5 := by
      simp only [List.length_take, List.length_drop]
      omega
    have hcnt : ((tokR.drop 9).take 5).countP (fun u => (pyFloat? u).isSome) = 5 := by
      rw [List.countP_eq_length.mpr hall, hlen5]
    rw [← List.take_append_drop 5 (tokR.drop 9), List.countP_append, hcnt] at hcR
    omega

/-- Witness for C8 at concrete short lines with declared beam count 5. -/
theorem c8_beam_count_five_witness :
    parseFlaserTok aReader (pySplit "FLASER 5 1.0 2.0") = none ∧
    parseRobotlaserTok aReader
      (pySplit "ROBOTLASER1 0 0.1 3.14 0.01 30.0 0.01 0 5 1.0 2.0") = none :=
  c8_beam_count_five aReader (pySplit "FLASER 5 1.0 2.0")
    (pySplit "ROBOTLASER1 0 0.1 3.14 0.01 30.0 0.01 0 5 1.0 2.0")
    (by with_unfolding_all decide) (by with_unfolding_all decide)
    (by with_unfolding_all decide) (by with_unfolding_all decide)

/-- C6 (amended): for every well-formed ROBOTLASER line **that the
size-threshold resolver classifies consistently with its layout** (no flags
with remission count ≤ n, or n flags with a positive remission count), the
produced record has `angle_min` = decoded start angle, `angle_increment` =
decoded angular resolution, `range_min` = 0, `range_max` = decoded
max-range field, poses, `tv` and `rv` from the line, and `stamp` = the
first value of the trailing three-token timestamp triplet (`ipcT`), with
the hostname and logger-timestamp tokens discarded.  (As stated over every
well-formed line the claim fails: a well-formed Layout-B line with
remission count 0 is misclassified and decodes with a shifted stamp and
poses — see the counterexample at `rlLineB0`.) -/
theorem c6_robotlaser_fields (self : CarmenLogReader)
    (tag s1 s2 s3 s4 s5 s6 s7 s8 : String) (rs fs rems : List String)
    (tkr l1 l2 l3 r1 r2 r3 tvT rvT w1 w2 w3 ipcT hostT logT : String)
    (lt rm : Int) (sa fov ar mr acc : ℚ) (vals : List ℚ)
    (lx ly lyaw rx ry ryaw tvv rvv st : ℚ)
    (h1 : pyInt? s1 = some lt) (h2 : pyFloat? s2 = some sa)
    (h3 : pyFloat? s3 = some fov) (h4 : pyFloat? s4 = some ar)
    (h5 : pyFloat? s5 = some mr) (h6 : pyFloat? s6 = some acc)
    (h7 : pyInt? s7 = some rm) (h8 : pyInt? s8 = some (rs.length : Int))
    (hrs : mapFloat? rs = some vals)
    (htkr : pyInt? tkr = some (rems.length : Int))
    (hl1 : pyFloat? l1 = some lx) (hl2 : pyFloat? l2 = some ly)
    (hl3 : pyFloat? l3 = some lyaw)
    (hr1 : pyFloat? r1 = some rx) (hr2 : pyFloat? r2 = some ry)
    (hr3 : pyFloat? r3 = some ryaw)
    (htv : pyFloat? tvT = some tvv) (hrvT : pyFloat? rvT = some rvv)
    (hipc : pyFloat? ipcT = some st)
    (hcase : (fs = [] ∧ rems.length ≤ rs.length)
      ∨ (fs.length = rs.length ∧ 0 < rems.length)) :
    parseRobotlaserTok self
      ([tag, s1, s2, s3, s4, s5, s6, s7, s8] ++ rs ++ fs ++ tkr :: (rems ++
        l1 :: l2 :: l3 :: r1 :: r2 :: r3 :: tvT :: rvT :: w1 :: w2 :: w3 ::
        ipcT :: hostT :: logT :: []))
    = some { stamp := st, frame_id := self.scan_frame_id, angle_min := sa,
             angle_increment := ar, range_min := 0, range_max := mr,
             ranges := vals, robot_pose := some ⟨rx, ry, ryaw⟩,
             laser_pose := some ⟨lx, ly, lyaw⟩, tv := some tvv, rv := some rvv } := by
  rcases hcase with ⟨hfs, hle⟩ | ⟨hfs, hpos⟩
  · subst hfs
    rw [List.append_nil]
    exact parseRobotlaserTok_layoutA self tag s1 s2 s3 s4 s5 s6 s7 s8 rs rems
      tkr l1 l2 l3 r1 r2 r3 tvT rvT w1 w2 w3 ipcT hostT logT lt rm sa fov ar mr
      acc vals lx ly lyaw rx ry ryaw tvv rvv st h1 h2 h3 h4 h5 h6 h7 h8 hrs
      htkr hle hl1 hl2 hl3 hr1 hr2 hr3 htv hrvT hipc
  · exact parseRobotlaserTok_layoutB self tag s1 s2 s3 s4 s5 s6 s7 s8 rs fs rems
      tkr l1 l2 l3 r1 r2 r3 tvT rvT w1 w2 w3 ipcT hostT logT lt rm sa fov ar mr
      acc vals lx ly lyaw rx ry ryaw tvv rvv st h1 h2 h3 h4 h5 h6 h7 h8 hrs hfs
      htkr hpos hl1 hl2 hl3 hr1 hr2 hr3 htv hrvT hipc

/-- Witness for C6 at the concrete Layout-A line `rlLineA1`. -/
theorem c6_robotlaser_fields_witness :
    parseRobotlaserTok aReader (pySplit rlLineA1)
      = some { stamp := 201/2, frame_id := "laser", angle_min := 1/10,
               angle_increment := 1/100, range_min := 0, range_max := 30,
               ranges := [11/2], robot_pose := some ⟨4, 5, 6⟩,
               laser_pose := some ⟨1, 2, 3⟩, tv := some (1/5),
               rv := some (3/10) } := by
  rw [show pySplit rlLineA1
      = (["ROBOTLASER1", "0", "0.1", "3.14", "0.01", "30.0", "0.01", "0", "1"]
          ++ ["5.5"] ++ ([] : List String) ++ "1" :: (["7.5"] ++
          "1.0" :: "2.0" :: "3.0" :: "4.0" :: "5.0" :: "6.0" :: "0.2" ::
          "0.3" :: "7.0" :: "8.0" :: "9.0" :: "100.5" :: "host" :: "101.0" :: []))
      from by with_unfolding_all decide]
  exact c6_robotlaser_fields aReader "ROBOTLASER1" "0" "0.1" "3.14" "0.01"
    "30.0" "0.01" "0" "1" ["5.5"] [] ["7.5"] "1" "1.0" "2.0" "3.0" "4.0" "5.0"
    "6.0" "0.2" "0.3" "7.0" "8.0" "9.0" "100.5" "host" "101.0" 0 0 (1/10)
    (157/50) (1/100) 30 (1/100) [11/2] 1 2 3 4 5 6 (1/5) (3/10) (201/2)
    (by with_unfolding_all decide) (by with_unfolding_all decide)
    (by with_unfolding_all decide) (by with_unfolding_all decide)
    (by with_unfolding_all decide) (by with_unfolding_all decide)
    (by with_unfolding_all decide) (by with_unfolding_all decide)
    (by with_unfolding_all decide) (by with_unfolding_all decide)
    (by with_unfolding_all decide) (by with_unfolding_all decide)
    (by with_unfolding_all decide) (by with_unfolding_all decide)
    (by with_unfolding_all decide) (by with_unfolding_all decide)
    (by with_unfolding_all decide) (by with_unfolding_all decide)
    (by with_unfolding_all decide)
    (Or.inl ⟨rfl, by decide⟩)

/-- C3 (amended): for a well-formed Layout-A ROBOTLASER line and the
corresponding Layout-B line obtained from it by inserting `n` flag tokens
between the range run and the remission count (all other fields equal),
decoding the two lines yields identical records — identical `ranges`,
`robot_pose`, `laser_pose`, `tv` and `rv` — **provided the remission count
`r` satisfies `0 < r ≤ n`**.  (As stated, over every such pair, the claim
fails: with `r = 0` the Layout-B line has exactly `15 + n` leftover tokens,
is misclassified as Layout A, and decodes to shifted poses — see the
counterexample.) -/
theorem c3_flag_insensitivity (self : CarmenLogReader)
    (tag s1 s2 s3 s4 s5 s6 s7 s8 : String) (rs fs rems : List String)
    (tkr l1 l2 l3 r1 r2 r3 tvT rvT w1 w2 w3 ipcT hostT logT : String)
    (lt rm : Int) (sa fov ar mr acc : ℚ) (vals : List ℚ)
    (lx ly lyaw rx ry ryaw tvv rvv st : ℚ)
    (h1 : pyInt? s1 = some lt) (h2 : pyFloat? s2 = some sa)
    (h3 : pyFloat? s3 = some fov) (h4 : pyFloat? s4 = some ar)
    (h5 : pyFloat? s5 = some mr) (h6 : pyFloat? s6 = some acc)
    (h7 : pyInt? s7 = some rm) (h8 : pyInt? s8 = some (rs.length : Int))
    (hrs : mapFloat? rs = some vals)
    (hfs : fs.length = rs.length)
    (htkr : pyInt? tkr = some (rems.length : Int))
    (hpos : 0 < rems.length) (hle : rems.length ≤ rs.length)
    (hl1 : pyFloat? l1 = some lx) (hl2 : pyFloat? l2 = some ly)
    (hl3 : pyFloat? l3 = some lyaw)
    (hr1 : pyFloat? r1 = some rx) (hr2 : pyFloat? r2 = some ry)
    (hr3 : pyFloat? r3 = some ryaw)
    (htv : pyFloat? tvT = some tvv) (hrvT : pyFloat? rvT = some rvv)
    (hipc : pyFloat? ipcT = some st) :
    parseRobotlaserTok self
        ([tag, s1, s2, s3, s4, s5, s6, s7, s8] ++ rs ++ tkr :: (rems ++
          l1 :: l2 :: l3 :: r1 :: r2 :: r3 :: tvT :: rvT :: w1 :: w2 :: w3 ::
          ipcT :: hostT :: logT :: []))
      = some { stamp := st, frame_id := self.scan_frame_id, angle_min := sa,
               angle_increment := ar, range_min := 0, range_max := mr,
               ranges := vals, robot_pose := some ⟨rx, ry, ryaw⟩,
               laser_pose := some ⟨lx, ly, lyaw⟩, tv := some tvv,
               rv := some rvv } ∧
    parseRobotlaserTok self
        ([tag, s1, s2, s3, s4, s5, s6, s7, s8] ++ rs ++ fs ++ tkr :: (rems ++
          l1 :: l2 :: l3 :: r1 :: r2 :: r3 :: tvT :: rvT :: w1 :: w2 :: w3 ::
          ipcT :: hostT :: logT :: []))
      = some { stamp := st, frame_id := self.scan_frame_id, angle_min := sa,
               angle_increment := ar, range_min := 0, range_max := mr,
               ranges := vals, robot_pose := some ⟨rx, ry, ryaw⟩,
               laser_pose := some ⟨lx, ly, lyaw⟩, tv := some tvv,
               rv := some rvv } :=
  ⟨parseRobotlaserTok_layoutA self tag s1 s2 s3 s4 s5 s6 s7 s8 rs rems
      tkr l1 l2 l3 r1 r2 r3 tvT rvT w1 w2 w3 ipcT hostT logT lt rm sa fov ar mr
      acc vals lx ly lyaw rx ry ryaw tvv rvv st h1 h2 h3 h4 h5 h6 h7 h8 hrs
      htkr hle hl1 hl2 hl3 hr1 hr2 hr3 htv hrvT hipc,
   parseRobotlaserTok_layoutB self tag s1 s2 s3 s4 s5 s6 s7 s8 rs fs rems
      tkr l1 l2 l3 r1 r2 r3 tvT rvT w1 w2 w3 ipcT hostT logT lt rm sa fov ar mr
      acc vals lx ly lyaw rx ry ryaw tvv rvv st h1 h2 h3 h4 h5 h6 h7 h8 hrs hfs
      htkr hpos hl1 hl2 hl3 hr1 hr2 hr3 htv hrvT hipc⟩

/-- A well-formed Layout-A ROBOTLASER line with `n = 1` and remission
count 0. -/
def rlLineA0 : String :=
  "ROBOTLASER1 0 0.1 3.14 0.01 30.0 0.01 0 1 5.5 0 1.0 2.0 3.0 4.0 5.0 6.0 0.2 0.3 7.0 8.0 9.0 100.5 host 101.0"

/-- `rlLineA0` with one "0" flag token inserted after the range run: the
corresponding Layout-B line. -/
def rlLineB0 : String :=
  "ROBOTLASER1 0 0.1 3.14 0.01 30.0 0.01 0 1 5.5 0 0 1.0 2.0 3.0 4.0 5.0 6.0 0.2 0.3 7.0 8.0 9.0 100.5 host 101.0"

/-- C3 counterexample: with remission count 0, the Layout-A line decodes to
`robot_pose = (4, 5, 6)` while its corresponding Layout-B line (flags
inserted, all other fields equal) is misclassified as Layout A and decodes
to `robot_pose = (3, 4, 5)`: the two records are not identical. -/
theorem c3_counterexample :
    (parseLine aReader rlLineA0).map (fun r => r.robot_pose)
        = some (some ⟨4, 5, 6⟩) ∧
    (parseLine aReader rlLineB0).map (fun r => r.robot_pose)
        = some (some ⟨3, 4, 5⟩) ∧
    (some (Pose2D.mk 4 5 6) : Option Pose2D) ≠ some (Pose2D.mk 3 4 5) := by
  with_unfolding_all decide

/-- C6 counterexample: `rlLineB0` is a well-formed Layout-B ROBOTLASER line
whose trailing timestamp triplet starts with the token `"100.5"` (at index
`length - 3`), yet because its remission count is 0 the resolver
misclassifies it as Layout A, and the produced record's stamp is `9 ≠
100.5`: the claimed field correspondence fails on this well-formed line. -/
theorem c6_counterexample :
    (parseLine aReader rlLineB0).map (fun r => r.stamp) = some 9 ∧
    (pySplit rlLineB0).get? ((pySplit rlLineB0).length - 3) = some "100.5" ∧
    pyFloat? "100.5" = some (201/2) ∧
    (9 : ℚ) ≠ 201/2 := by
  with_unfolding_all decide

/-- Witness for C3 (amended) at the concrete pair built from `rlLineA1`
(`n = 1`, remission count 1) and its flag-inserted Layout-B variant. -/
theorem c3_flag_insensitivity_witness :
    parseRobotlaserTok aReader
        (["ROBOTLASER1", "0", "0.1", "3.14", "0.01", "30.0", "0.01", "0", "1"]
          ++ ["5.5"] ++ "1" :: (["7.5"] ++
          "1.0" :: "2.0" :: "3.0" :: "4.0" :: "5.0" :: "6.0" :: "0.2" ::
          "0.3" :: "7.0" :: "8.0" :: "9.0" :: "100.5" :: "host" :: "101.0" :: []))
      = some { stamp := 201/2, frame_id := "laser", angle_min := 1/10,
               angle_increment := 1/100, range_min := 0, range_max := 30,
               ranges := [11/2], robot_pose := some ⟨4, 5, 6⟩,
               laser_pose := some ⟨1, 2, 3⟩, tv := some (1/5),
               rv := some (3/10) } ∧
    parseRobotlaserTok aReader
        (["ROBOTLASER1", "0", "0.1", "3.14", "0.01", "30.0", "0.01", "0", "1"]
          ++ ["5.5"] ++ ["0"] ++ "1" :: (["7.5"] ++
          "1.0" :: "2.0" :: "3.0" :: "4.0" :: "5.0" :: "6.0" :: "0.2" ::
          "0.3" :: "7.0" :: "8.0" :: "9.0" :: "100.5" :: "host" :: "101.0" :: []))
      = some { stamp := 201/2, frame_id := "laser", angle_min := 1/10,
               angle_increment := 1/100, range_min := 0, range_max := 30,
               ranges := [11/2], robot_pose := some ⟨4, 5, 6⟩,
               laser_pose := some ⟨1, 2, 3⟩, tv := some (1/5),
               rv := some (3/10) } :=
  c3_flag_insensitivity aReader "ROBOTLASER1" "0" "0.1" "3.14" "0.01" "30.0"
    "0.01" "0" "1" ["5.5"] ["0"] ["7.5"] "1" "1.0" "2.0" "3.0" "4.0" "5.0"
    "6.0" "0.2" "0.3" "7.0" "8.0" "9.0" "100.5" "host" "101.0" 0 0 (1/10)
    (157/50) (1/100) 30 (1/100) [11/2] 1 2 3 4 5 6 (1/5) (3/10) (201/2)
    (by with_unfolding_all decide) (by with_unfolding_all decide)
    (by with_unfolding_all decide) (by with_unfolding_all decide)
    (by with_unfolding_all decide) (by with_unfolding_all decide)
    (by with_unfolding_all decide) (by with_unfolding_all decide)
    (by with_unfolding_all decide) (by decide)
    (by with_unfolding_all decide) (by decide) (by decide)
    (by with_unfolding_all decide) (by with_unfolding_all decide)
    (by with_unfolding_all decide) (by with_unfolding_all decide)
    (by with_unfolding_all decide) (by with_unfolding_all decide)
    (by with_unfolding_all decide) (by with_unfolding_all decide)
    (by with_unfolding_all decide)

/-- C7: for every well-formed FLASER (or, by delegation, RLASER) line with
beam count `n = rs.length`, the produced record has `stamp` = the float
value of the third-from-last token (`ipcT` in the trailer), `angle_min` =
`-π/2`, `angle_increment` = `(π/2 - (-π/2)) / max (n-1) 1`, `range_min` =
0, `range_max` = `pyListMax` of the ranges — the maximum range value when
`ranges` is nonempty and 0 when empty — `robot_pose` from the three floats
after the range run, and `laser_pose` absent.  The last conjunct records
that the RLASER decoder is the FLASER decoder. -/
theorem c7_flaser_fields (self : CarmenLogReader) (line : String)
    (tagT nT xT yT thT : String) (rs mid : List String)
    (ipcT hostT logT : String) (vals : List ℚ) (x y th st : ℚ)
    (hn : pyInt? nT = some (rs.length : Int))
    (hrs : mapFloat? rs = some vals)
    (hx : pyFloat? xT = some x) (hy : pyFloat? yT = some y)
    (hth : pyFloat? thT = some th)
    (hipc : pyFloat? ipcT = some st) :
    parseFlaserTok self
        (tagT :: nT :: (rs ++ xT :: yT :: thT :: (mid ++ ipcT :: hostT :: logT :: [])))
      = some { stamp := st, frame_id := self.scan_frame_id,
               angle_min := -mathPi / 2,
               angle_increment := (mathPi / 2 - -mathPi / 2) /
                 ((max ((rs.length : Int) - 1) 1 : Int) : ℚ),
               range_min := 0, range_max := pyListMax vals, ranges := vals,
               robot_pose := some ⟨x, y, th⟩, laser_pose := none,
               tv := none, rv := none } ∧
    parseRlaser self line = parseFlaser self line ∧
    (vals = [] → pyListMax vals = 0) ∧
    (vals ≠ [] → pyListMax vals ∈ vals ∧ ∀ v ∈ vals, v ≤ pyListMax vals) := by
  refine ⟨parseFlaserTok_eq self tagT nT xT yT thT rs mid ipcT hostT logT
    vals x y th st hn hrs hx hy hth hipc, rfl, ?_, ?_⟩
  · intro h
    subst h
    rfl
  · intro h
    exact pyListMax_spec vals h

/-- Witness for C7 at the tokens of the legacy test line. -/
theorem c7_flaser_fields_witness :
    parseFlaserTok aReader
        ("FLASER" :: "3" :: (["1.0", "2.0", "3.0"] ++ "0.5" :: "0.5" :: "0.0" ::
          (["0.5", "0.5", "0.0"] ++ "1000.0" :: "host" :: "1000.1" :: [])))
      = some { stamp := 1000, frame_id := "laser",
               angle_min := -mathPi / 2,
               angle_increment := (mathPi / 2 - -mathPi / 2) /
                 (((max (((["1.0", "2.0", "3.0"] : List String).length : Int) - 1) 1 : Int)) : ℚ),
               range_min := 0, range_max := pyListMax [1, 2, 3],
               ranges := [1, 2, 3],
               robot_pose := some ⟨1/2, 1/2, 0⟩, laser_pose := none,
               tv := none, rv := none } ∧
    pyListMax [1, 2, 3] ∈ ([1, 2, 3] : List ℚ) :=
  ⟨(c7_flaser_fields aReader "RLASER 1 2.0 0.0 0.0 0.0 3.0 h 4.0" "FLASER" "3"
      "0.5" "0.5" "0.0" ["1.0", "2.0", "3.0"] ["0.5", "0.5", "0.0"]
      "1000.0" "host" "1000.1" [1, 2, 3] (1/2) (1/2) 0 1000
      (by with_unfolding_all decide) (by with_unfolding_all decide)
      (by with_unfolding_all decide) (by with_unfolding_all decide)
      (by with_unfolding_all decide) (by with_unfolding_all decide)).1,
   ((c7_flaser_fields aReader "RLASER 1 2.0 0.0 0.0 0.0 3.0 h 4.0" "FLASER" "3"
      "0.5" "0.5" "0.0" ["1.0", "2.0", "3.0"] ["0.5", "0.5", "0.0"]
      "1000.0" "host" "1000.1" [1, 2, 3] (1/2) (1/2) 0 1000
      (by with_unfolding_all decide) (by with_unfolding_all decide)
      (by with_unfolding_all decide) (by with_unfolding_all decide)
      (by with_unfolding_all decide) (by with_unfolding_all decide)).2.2.2
    (by decide)).1⟩

/-- C5 counterexample: decoding the specification's legacy test line yields
`angle_increment = π/2` (the 180° field of view divided by
`max (3-1, 1) = 2`), not `π/4` as the claim states. -/
theorem c5_counterexample :
    (parseLine aReader flaserTestLine).map (fun r => r.angle_increment)
        = some (mathPi / 2) ∧
    mathPi / 2 ≠ mathPi / 4 := by
  have hdisp : parseLine aReader flaserTestLine
      = parseFlaserTok aReader (pySplit flaserTestLine) := rfl
  have hsplit : pySplit flaserTestLine
      = "FLASER" :: "3" :: (["1.0", "2.0", "3.0"] ++ "0.5" :: "0.5" :: "0.0" ::
        (["0.5", "0.5", "0.0"] ++ "1000.0" :: "host" :: "1000.1" :: [])) := by
    decide
  have hmaxI : (max (((["1.0", "2.0", "3.0"] : List String).length : Int) - 1) 1 : Int) = 2 := by
    decide
  rw [hdisp, hsplit,
    parseFlaserTok_eq aReader "FLASER" "3" "0.5" "0.5" "0.0" ["1.0", "2.0", "3.0"]
      ["0.5", "0.5", "0.0"] "1000.0" "host" "1000.1" [1, 2, 3] (1/2) (1/2) 0 1000
      (by decide) (by with_unfolding_all decide) (by with_unfolding_all decide)
      (by with_unfolding_all decide) (by with_unfolding_all decide)
      (by with_unfolding_all decide), hmaxI]
  constructor
  · simp only [Option.map_some']
    refine congrArg some ?_
    push_cast
    ring
  · rw [mathPi]
    norm_num

/-- C5 (amended): decoding the exact line
`"FLASER 3 1.0 2.0 3.0 0.5 0.5 0.0 0.5 0.5 0.0 1000.0 host 1000.1"`
produces a record with `ranges = [1, 2, 3]`, `robot_pose = (0.5, 0.5, 0)`,
`stamp = 1000.0`, `angle_min = -π/2`, and `angle_increment = π/2` (the
claim's `π/4` corrected to `π/2`). -/
theorem c5_flaser_example :
    parseLine aReader flaserTestLine
      = some { stamp := 1000, frame_id := "laser", angle_min := -mathPi / 2,
               angle_increment := mathPi / 2, range_min := 0, range_max := 3,
               ranges := [1, 2, 3], robot_pose := some ⟨1/2, 1/2, 0⟩,
               laser_pose := none, tv := none, rv := none } := by
  have hdisp : parseLine aReader flaserTestLine
      = parseFlaserTok aReader (pySplit flaserTestLine) := rfl
  have hsplit : pySplit flaserTestLine
      = "FLASER" :: "3" :: (["1.0", "2.0", "3.0"] ++ "0.5" :: "0.5" :: "0.0" ::
        (["0.5", "0.5", "0.0"] ++ "1000.0" :: "host" :: "1000.1" :: [])) := by
    decide
  have hmaxI : (max (((["1.0", "2.0", "3.0"] : List String).length : Int) - 1) 1 : Int) = 2 := by
    decide
  have hmax : pyListMax [1, 2, 3] = 3 := by
    show max (max (1 : ℚ) 2) 3 = 3
    rw [max_eq_right (by norm_num : (1 : ℚ) ≤ 2),
      max_eq_right (by norm_num : (2 : ℚ) ≤ 3)]
  have hinc : (mathPi / 2 - -mathPi / 2) / ((2 : Int) : ℚ) = mathPi / 2 := by
    push_cast
    ring
  rw [hdisp, hsplit,
    parseFlaserTok_eq aReader "FLASER" "3" "0.5" "0.5" "0.0" ["1.0", "2.0", "3.0"]
      ["0.5", "0.5", "0.0"] "1000.0" "host" "1000.1" [1, 2, 3] (1/2) (1/2) 0 1000
      (by decide) (by with_unfolding_all decide) (by with_unfolding_all decide)
      (by with_unfolding_all decide) (by with_unfolding_all decide)
      (by with_unfolding_all decide), hmaxI, hmax, hinc]
  rfl

/-- C10: the FLASER line `"FLASER 2 1.0 2.0 0.5 0.6 0.7"` has a valid beam
count, two parsable range tokens and three parsable tokens after them, but
no three-token trailer; the decoder still produces a record, whose stamp
0.5 is the float value of the third-from-last token of the line — token
index 4 = (length 7) - 3, the very token already consumed as the pose-x
field — because the decoder never checks that front-consumed tokens and
the back-indexed trailer are disjoint. -/
theorem c10_missing_trailer :
    parseLine aReader "FLASER 2 1.0 2.0 0.5 0.6 0.7"
      = some { stamp := 1/2, frame_id := "laser", angle_min := -mathPi / 2,
               angle_increment := mathPi, range_min := 0, range_max := 2,
               ranges := [1, 2], robot_pose := some ⟨1/2, 3/5, 7/10⟩,
               laser_pose := none, tv := none, rv := none } ∧
    (pySplit "FLASER 2 1.0 2.0 0.5 0.6 0.7").length = 7 ∧
    (pySplit "FLASER 2 1.0 2.0 0.5 0.6 0.7").get? 4 = some "0.5" := by
  refine ⟨?_, by decide, by decide⟩
  have hdisp : parseLine aReader "FLASER 2 1.0 2.0 0.5 0.6 0.7"
      = parseFlaserTok aReader (pySplit "FLASER 2 1.0 2.0 0.5 0.6 0.7") := rfl
  have hsplit : pySplit "FLASER 2 1.0 2.0 0.5 0.6 0.7"
      = ["FLASER", "2", "1.0", "2.0", "0.5", "0.6", "0.7"] := by decide
  have hn : (pyGet ["FLASER", "2", "1.0", "2.0", "0.5", "0.6", "0.7"] 1).bind pyInt?
      = some 2 := by decide
  have hrs : mapFloat? (pySlice ["FLASER", "2", "1.0", "2.0", "0.5", "0.6", "0.7"] 2 (2 + 2))
      = some [1, 2] := by with_unfolding_all decide
  have hx : (pyGet ["FLASER", "2", "1.0", "2.0", "0.5", "0.6", "0.7"] (2 + 2)).bind pyFloat?
      = some (1/2) := by with_unfolding_all decide
  have hy : (pyGet ["FLASER", "2", "1.0", "2.0", "0.5", "0.6", "0.7"] (2 + 2 + 1)).bind pyFloat?
      = some (3/5) := by with_unfolding_all decide
  have hth : (pyGet ["FLASER", "2", "1.0", "2.0", "0.5", "0.6", "0.7"] (2 + 2 + 2)).bind pyFloat?
      = some (7/10) := by with_unfolding_all decide
  have hst : (pyGet ["FLASER", "2", "1.0", "2.0", "0.5", "0.6", "0.7"] (-3)).bind pyFloat?
      = some (1/2) := by with_unfolding_all decide
  rw [hdisp, hsplit]
  simp only [parseFlaserTok, hn, hrs, hx, hy, hth, hst, bind, Option.some_bind]
  have hmaxI : (max ((2 : Int) - 1) 1 : Int) = 1 := by decide
  rw [hmaxI]
  have hmax : pyListMax [1, 2] = 2 := by
    show max (1 : ℚ) 2 = 2
    rw [max_eq_right (by norm_num : (1 : ℚ) ≤ 2)]
  have hinc : (mathPi / 2 - -mathPi / 2) / ((1 : Int) : ℚ) = mathPi := by
    push_cast
    ring
  rw [hmax, hinc]
  rfl
